import Mathlib

/-!
Shallow embedding of the packit-service event-normalization core:
`packit_service/worker/parser.py`, `packit_service/service/events.py` and
`packit_service/config.py`, together with the external helpers they use
(`packit.utils.nested_get`, Python `dict`/`str`/`datetime` semantics).
Payloads are modelled as a JSON-like value type `Val`; Python exceptions are
modelled with `Except PyErr`; external collaborators (ogr URL parsing, the
Testing Farm detail fetch, the build DBs, `xmltodict.parse`) are fields of an
`Externals` record supplied to the extractors.
-/

namespace Packit

/-- Python/JSON-like values appearing in raw webhook and message payloads. -/
inductive Val where
  | none
  | bool (b : Bool)
  | int (n : Int)
  | str (s : String)
  | list (xs : List Val)
  | dict (kvs : List (String × Val))
deriving Repr, Inhabited

/-- Python exceptions that the embedded code can raise. -/
inductive PyErr where
  | keyError (k : String)
  | indexError
  | typeError
  | attributeError
  | valueError (msg : String)
  | expatError
  | exception (msg : String)
deriving Repr, DecidableEq, Inhabited

/-- Lookup of a string key in an association list (Python dict access). -/
def lookupStr (kvs : List (String × Val)) (k : String) : Option Val :=
  match kvs.find? (fun p => p.1 == k) with
  | Option.some p => Option.some p.2
  | Option.none => Option.none

/-- Python truthiness: `None`, `False`, `0`, `""`, `[]` and `{}` are falsy. -/
def Val.truthy : Val → Bool
  | .none => false
  | .bool b => b
  | .int n => n != 0
  | .str s => !s.isEmpty
  | .list xs => !xs.isEmpty
  | .dict kvs => !kvs.isEmpty

/-- True exactly when the value is a Python dict. -/
def Val.isDict : Val → Bool
  | .dict _ => true
  | _ => false

/-- Python `d.get(k, default)`: the value under `k`, or the default.
All call sites in the embedded code apply it to dict payloads. -/
def Val.get (v : Val) (k : String) (default : Val := Val.none) : Val :=
  match v with
  | .dict kvs =>
    match lookupStr kvs k with
    | Option.some x => x
    | Option.none => default
  | _ => default

/-- Python subscript `v[k]` with a string key: `KeyError` when the key is
missing from a dict, `TypeError` when the value is not subscriptable. -/
def Val.sub (v : Val) (k : String) : Except PyErr Val :=
  match v with
  | .dict kvs =>
    match lookupStr kvs k with
    | Option.some x => Except.ok x
    | Option.none => Except.error (PyErr.keyError k)
  | _ => Except.error PyErr.typeError

/-- Python `==` between a payload value and a string literal. -/
def pyEq (v : Val) (s : String) : Bool :=
  match v with
  | .str t => t == s
  | _ => false

mutual
/-- Python `==` between two payload values (`True == 1` numerically;
dict comparison is structural over the stored key order, which coincides
with Python for the equal-by-construction dicts compared here). -/
def Val.beq : Val → Val → Bool
  | .none, .none => true
  | .bool a, .bool b => a == b
  | .bool a, .int n => (if a then (1 : Int) else 0) == n
  | .int n, .bool a => n == (if a then (1 : Int) else 0)
  | .int a, .int b => a == b
  | .str a, .str b => a == b
  | .list xs, .list ys => Val.beqList xs ys
  | .dict xs, .dict ys => Val.beqKVs xs ys
  | _, _ => false

/-- Pointwise Python `==` on lists. -/
def Val.beqList : List Val → List Val → Bool
  | [], [] => true
  | x :: xs, y :: ys => Val.beq x y && Val.beqList xs ys
  | _, _ => false

/-- Pointwise Python `==` on dict entries. -/
def Val.beqKVs : List (String × Val) → List (String × Val) → Bool
  | [], [] => true
  | (k, x) :: xs, (l, y) :: ys => k == l && Val.beq x y && Val.beqKVs xs ys
  | _, _ => false
end

/-- Python `a or b`: `a` when truthy, else `b`. -/
def pyOr (a b : Val) : Val :=
  if a.truthy then a else b

/-- Keys of `packit.utils.nested_get` paths: dict keys or sequence indices. -/
inductive NKey where
  | s (k : String)
  | i (n : Int)
deriving Repr, DecidableEq

/-- One subscript step as `nested_get` performs it, with `Option.none` for
every failure (missing key, wrong kind, index out of range) that the helper
turns into its default. String indexing returns the one-character substring,
and negative sequence indices wrap around, as in Python. -/
def nkStep (v : Val) : NKey → Option Val
  | .s k =>
    match v with
    | .dict kvs => lookupStr kvs k
    | _ => Option.none
  | .i n =>
    match v with
    | .list xs =>
      let m : Int := if n < 0 then n + xs.length else n
      if h : 0 ≤ m ∧ m.toNat < xs.length then Option.some (xs.get ⟨m.toNat, h.2⟩)
      else Option.none
    | .str s =>
      let cs := s.toList
      let m : Int := if n < 0 then n + cs.length else n
      if h : 0 ≤ m ∧ m.toNat < cs.length then
        Option.some (Val.str (String.mk [cs.get ⟨m.toNat, h.2⟩]))
      else Option.none
    | _ => Option.none

/-- Walk used by `nested_get`: the caller-supplied default replaces the
result as soon as any step fails. -/
def nkWalk (v : Val) (path : List NKey) (default : Val) : Val :=
  match path with
  | [] => v
  | k :: ks =>
    match nkStep v k with
    | Option.some w => nkWalk w ks default
    | Option.none => default

/-- Modelled from the spec: the Field Access Helper `packit.utils.nested_get`
(the packit library is not under src/) — safe nested lookup over untyped
tree-shaped data returning a caller-supplied default (by default the absent
value `None`) when any path segment is missing, of the wrong kind or out of
range, while an explicitly stored falsy value is returned as-is. -/
def nested_get (v : Val) (path : List NKey) (default : Val := Val.none) : Val :=
  nkWalk v path default

/-- Python `str()` rendering used by f-string interpolation in the source.
Strings render as themselves; container rendering elides Python `repr`
quoting, which no embedded claim observes. -/
def pyStr : Val → String
  | .none => "None"
  | .bool b => if b then "True" else "False"
  | .int n => toString n
  | .str s => s
  | .list _ => "[...]"
  | .dict _ => "{...}"

end Packit

namespace Packit

/-- Python `datetime` as the embedding observes it: `ts` is the POSIX epoch
value in seconds (`datetime.timestamp()` for aware datetimes; the wall-clock
seconds read as UTC for naive ones) and `aware` records whether the datetime
carries a timezone. Two datetimes are equal exactly when the structures are:
aware datetimes compare by instant, and an aware datetime never equals a
naive one, as in Python. -/
structure PyDatetime where
  ts : Rat
  aware : Bool
deriving Repr, DecidableEq, Inhabited

/-- Python `int(q)`: truncation toward zero. -/
def pyTrunc (q : Rat) : Int :=
  if 0 ≤ q then q.floor else -((-q).floor)

/-- Python `datetime.timestamp()`: the epoch seconds, shifting a naive
datetime by the ambient local-timezone offset `lo` (seconds east of UTC). -/
def PyDatetime.timestamp (lo : Rat) (d : PyDatetime) : Rat :=
  if d.aware then d.ts else d.ts - lo

/-- Python `datetime.fromtimestamp(q, timezone.utc)`. -/
def fromtimestampUtc (q : Rat) : PyDatetime :=
  ⟨q, true⟩

/-- Days from the epoch 1970-01-01 of the proleptic Gregorian date `y-m-d`
(the civil-from-days algorithm used by every calendar implementation). -/
def daysFromCivil (y m d : Int) : Int :=
  let y1 : Int := y - (if m ≤ 2 then 1 else 0)
  let era : Int := Int.fdiv y1 400
  let yoe : Int := y1 - era * 400
  let doy : Int := Int.fdiv (153 * (m + (if m > 2 then -3 else 9)) + 2) 5 + d - 1
  let doe : Int := yoe * 365 + Int.fdiv yoe 4 - Int.fdiv yoe 100 + doy
  era * 146097 + doe - 719468

/-- Number of days in a month of the proleptic Gregorian calendar. -/
def daysInMonth (y m : Int) : Int :=
  if m = 2 then
    if y % 4 = 0 ∧ (y % 100 ≠ 0 ∨ y % 400 = 0) then 29 else 28
  else if m = 4 ∨ m = 6 ∨ m = 9 ∨ m = 11 then 30
  else 31

/-- Value of a decimal digit character, if it is one. -/
def digitVal (c : Char) : Option Nat :=
  if c.isDigit then Option.some (c.toNat - 48) else Option.none

/-- Decimal value of a fixed-width digit run. -/
def digitsVal (cs : List Char) : Option Nat :=
  cs.foldl
    (fun acc c =>
      match acc, digitVal c with
      | Option.some a, Option.some v => Option.some (a * 10 + v)
      | _, _ => Option.none)
    (Option.some 0)

/-- Parse the `HH:MM:SS` portion of an ISO time, as seconds of the day. -/
def parseHMS : List Char → Option Int
  | [h1, h2, ':', m1, m2, ':', s1, s2] =>
    match digitsVal [h1, h2], digitsVal [m1, m2], digitsVal [s1, s2] with
    | Option.some h, Option.some mi, Option.some s =>
      if h ≤ 23 ∧ mi ≤ 59 ∧ s ≤ 59 then Option.some ((h : Int) * 3600 + mi * 60 + s)
      else Option.none
    | _, _, _ => Option.none
  | _ => Option.none

/-- Parse the `±HH:MM` UTC-offset suffix of an ISO string, in seconds. -/
def parseOffset : List Char → Option Int
  | [sign, h1, h2, ':', m1, m2] =>
    match digitsVal [h1, h2], digitsVal [m1, m2] with
    | Option.some h, Option.some mi =>
      let mag : Int := (h : Int) * 3600 + mi * 60
      if sign = '+' then (if h ≤ 23 ∧ mi ≤ 59 then Option.some mag else Option.none)
      else if sign = '-' then (if h ≤ 23 ∧ mi ≤ 59 then Option.some (-mag) else Option.none)
      else Option.none
    | _, _ => Option.none
  | _ => Option.none

/-- Modelled from Python `datetime.fromisoformat` on the subset of inputs the
service receives: `YYYY-MM-DD`, optionally followed by a `T` or space
separator, a `HH:MM:SS` time, and optionally a `±HH:MM` UTC offset.
Offset-bearing strings yield aware datetimes at the denoted instant; strings
without an offset yield naive datetimes; everything else is rejected
(`None` here, a `ValueError` at the call site). -/
def fromisoformat (s : String) : Option PyDatetime :=
  match s.toList with
  | y1 :: y2 :: y3 :: y4 :: '-' :: m1 :: m2 :: '-' :: d1 :: d2 :: rest =>
    match digitsVal [y1, y2, y3, y4], digitsVal [m1, m2], digitsVal [d1, d2] with
    | Option.some y, Option.some m, Option.some d =>
      if 1 ≤ m ∧ m ≤ 12 ∧ 1 ≤ d ∧ (d : Int) ≤ daysInMonth y m then
        let day : Int := daysFromCivil y m d
        match rest with
        | [] => Option.some ⟨(day * 86400 : Int), false⟩
        | sep :: timeRest =>
          if sep = 'T' ∨ sep = ' ' then
            let hms := timeRest.take 8
            let tail := timeRest.drop 8
            match parseHMS hms with
            | Option.some secs =>
              match tail with
              | [] => Option.some ⟨(day * 86400 + secs : Int), false⟩
              | _ =>
                match parseOffset tail with
                | Option.some off => Option.some ⟨(day * 86400 + secs - off : Int), true⟩
                | Option.none => Option.none
            | Option.none => Option.none
          else Option.none
      else Option.none
    | _, _, _ => Option.none
  | _ => Option.none

/-- Python `s.replace("Z", "+00:00")` as `Event.__init__` performs it; the
pattern is a single character, so occurrences are replaced independently. -/
def pyReplaceZ (s : String) : String :=
  String.mk (s.toList.foldr
    (fun c acc => if c = 'Z' then '+' :: '0' :: '0' :: ':' :: '0' :: '0' :: acc else c :: acc)
    [])

/-- Argument type of `Event.__init__`'s `created_at` parameter
(`Union[int, float, str] = None`). -/
inductive CreatedAtArg where
  | pynone
  | pint (n : Int)
  | pfloat (q : Rat)
  | pstr (s : String)
deriving Repr, DecidableEq

/-- Python truthiness of the `created_at` argument. -/
def CreatedAtArg.truthy : CreatedAtArg → Bool
  | .pynone => false
  | .pint n => n != 0
  | .pfloat q => q != 0
  | .pstr s => !s.isEmpty

/-- Embedding of the `created_at` normalization in `Event.__init__`
(`service/events.py`): a truthy int or float is passed to
`datetime.fromtimestamp(·, timezone.utc)`, a truthy string has `Z` replaced
by `+00:00` and is parsed with `datetime.fromisoformat`, and a falsy
argument falls back to `datetime.now()` (the `now` parameter). -/
def eventCreatedAt (now : PyDatetime) (a : CreatedAtArg) : Except PyErr PyDatetime :=
  if a.truthy then
    match a with
    | .pint n => Except.ok (fromtimestampUtc (n : Rat))
    | .pfloat q => Except.ok (fromtimestampUtc q)
    | .pstr s =>
      match fromisoformat (pyReplaceZ s) with
      | Option.some d => Except.ok d
      | Option.none => Except.error (PyErr.valueError "Invalid isoformat string")
    | .pynone => Except.ok now
  else Except.ok now

/-- The same normalization applied to a payload value, as
`InstallationEvent` does when forwarding `created_at` from the webhook JSON;
a Python `bool` is an `int`, and a truthy value of any other kind leaves the
attribute unassigned, surfacing later as an `AttributeError`. -/
def eventCreatedAtVal (now : PyDatetime) (v : Val) : Except PyErr PyDatetime :=
  match v with
  | .int n => eventCreatedAt now (.pint n)
  | .bool b => eventCreatedAt now (.pint (if b then 1 else 0))
  | .str s => eventCreatedAt now (.pstr s)
  | .none => eventCreatedAt now .pynone
  | w => if w.truthy then Except.error PyErr.attributeError else Except.ok now

end Packit

namespace Packit

/-- Modelled from the spec: `packit.config.JobTriggerType` (the packit
library is not under src/), the closed trigger enum of the Event base with
its lowercase string values (§3 of the spec lists the members). -/
inductive JobTriggerType where
  | release
  | pull_request
  | comment
  | installation
  | commit
  | testing_farm_results
deriving Repr, DecidableEq

/-- String value of a `JobTriggerType` member. -/
def JobTriggerType.value : JobTriggerType → String
  | .release => "release"
  | .pull_request => "pull_request"
  | .comment => "comment"
  | .installation => "installation"
  | .commit => "commit"
  | .testing_farm_results => "testing_farm_results"

/-- The `PullRequestAction` enum of `service/events.py`. -/
inductive PullRequestAction where
  | opened
  | reopened
  | synchronize
deriving Repr, DecidableEq

/-- String value of a `PullRequestAction` member (values equal names). -/
def PullRequestAction.value : PullRequestAction → String
  | .opened => "opened"
  | .reopened => "reopened"
  | .synchronize => "synchronize"

/-- Name-indexing `PullRequestAction[name]`. -/
def PullRequestAction.byName (v : Val) : Option PullRequestAction :=
  if pyEq v "opened" then Option.some .opened
  else if pyEq v "reopened" then Option.some .reopened
  else if pyEq v "synchronize" then Option.some .synchronize
  else Option.none

/-- The `PullRequestCommentAction` enum of `service/events.py`. -/
inductive PullRequestCommentAction where
  | created
  | edited
deriving Repr, DecidableEq

/-- String value of a `PullRequestCommentAction` member. -/
def PullRequestCommentAction.value : PullRequestCommentAction → String
  | .created => "created"
  | .edited => "edited"

/-- Name-indexing `PullRequestCommentAction[name]`. -/
def PullRequestCommentAction.byName (v : Val) : Option PullRequestCommentAction :=
  if pyEq v "created" then Option.some .created
  else if pyEq v "edited" then Option.some .edited
  else Option.none

/-- The `IssueCommentAction` enum of `service/events.py`. -/
inductive IssueCommentAction where
  | created
  | edited
deriving Repr, DecidableEq

/-- String value of an `IssueCommentAction` member. -/
def IssueCommentAction.value : IssueCommentAction → String
  | .created => "created"
  | .edited => "edited"

/-- Name-indexing `IssueCommentAction[name]`. -/
def IssueCommentAction.byName (v : Val) : Option IssueCommentAction :=
  if pyEq v "created" then Option.some .created
  else if pyEq v "edited" then Option.some .edited
  else Option.none

/-- The `WhitelistStatus` enum of `service/events.py`. -/
inductive WhitelistStatus where
  | approved_automatically
  | waiting
  | approved_manually
deriving Repr, DecidableEq

/-- String value of a `WhitelistStatus` member (values equal names). -/
def WhitelistStatus.value : WhitelistStatus → String
  | .approved_automatically => "approved_automatically"
  | .waiting => "waiting"
  | .approved_manually => "approved_manually"

/-- Modelled from the spec: the `GitlabEventAction` enum the parser indexes
by name (the events module defining it is not under src/); the names the
parser can reach are the `opened` state and the `reopen`/`update` actions. -/
inductive GitlabEventAction where
  | opened
  | reopen
  | update
deriving Repr, DecidableEq

/-- Name-indexing `GitlabEventAction[name]`; a missing name is a `KeyError`. -/
def GitlabEventAction.byName (v : Val) : Option GitlabEventAction :=
  if pyEq v "opened" then Option.some .opened
  else if pyEq v "reopen" then Option.some .reopen
  else if pyEq v "update" then Option.some .update
  else Option.none

/-- Modelled from the spec: the `TestingFarmResult` enum of the models
module (not under src/): the per-test/overall result values §3 lists
(passed, failed, error, running) together with the `unknown` fallback the
parser itself converts, so the closed-enum conversion accepts exactly
these strings. -/
inductive TestingFarmResult where
  | passed
  | failed
  | error
  | running
  | unknown
deriving Repr, DecidableEq

/-- String value of a `TestingFarmResult` member. -/
def TestingFarmResult.value : TestingFarmResult → String
  | .passed => "passed"
  | .failed => "failed"
  | .error => "error"
  | .running => "running"
  | .unknown => "unknown"

/-- Value-converting `TestingFarmResult(x)`; a value outside the closed
enumeration is a `ValueError`. -/
def TestingFarmResult.ofVal (v : Val) : Option TestingFarmResult :=
  if pyEq v "passed" then Option.some .passed
  else if pyEq v "failed" then Option.some .failed
  else if pyEq v "error" then Option.some .error
  else if pyEq v "running" then Option.some .running
  else if pyEq v "unknown" then Option.some .unknown
  else Option.none

/-- Modelled from the spec: the `KojiBuildState` closed enumeration of the
constants module (not under src/); build task states of the Koji build
system, converted from the `new`/`old` payload fields. -/
inductive KojiBuildState where
  | free
  | open
  | closed
  | canceled
  | assigned
  | failed
deriving Repr, DecidableEq

/-- Value-converting `KojiBuildState(x)`; an unknown value is a `ValueError`. -/
def KojiBuildState.ofVal (v : Val) : Option KojiBuildState :=
  if pyEq v "free" then Option.some .free
  else if pyEq v "open" then Option.some .open
  else if pyEq v "closed" then Option.some .closed
  else if pyEq v "canceled" then Option.some .canceled
  else if pyEq v "assigned" then Option.some .assigned
  else if pyEq v "failed" then Option.some .failed
  else Option.none

/-- The `ProjectToSync` named tuple of `config.py`: one configured
mirroring rule. -/
structure ProjectToSync where
  forge : String
  repo_namespace : String
  repo_name : String
  branch : String
  dg_repo_name : String
  dg_branch : String
deriving Repr, DecidableEq

/-- Embedding of `ServiceConfig.get_project_to_sync` (`config.py`): the
first configured rule whose downstream repo name and branch equal the
given payload values. -/
def get_project_to_sync (projects_to_sync : List ProjectToSync)
    (dg_repo_name dg_branch : Val) : Option ProjectToSync :=
  (projects_to_sync.filter
    (fun project =>
      pyEq dg_repo_name project.dg_repo_name && pyEq dg_branch project.dg_branch)).head?

end Packit

namespace Packit

/-- Values stored in an event's `__dict__` before serialization:
enum members, the datetime, plain strings/ints and raw payload values. -/
inductive PyObj where
  | trig (t : JobTriggerType)
  | dt (d : PyDatetime)
  | act (a : PullRequestAction)
  | wstatus (w : WhitelistStatus)
  | str (s : String)
  | int (n : Int)
  | val (v : Val)
  | valList (xs : List Val)
deriving Repr

/-- In-place update `d[k] = f(d[k])` on an attribute dict, as the
`get_dict` overrides perform it (insertion order is preserved). -/
def assocSet (kvs : List (String × PyObj)) (k : String) (f : PyObj → PyObj) :
    List (String × PyObj) :=
  kvs.map (fun p => if p.1 == k then (p.1, f p.2) else p)

/-- Conversion `d["trigger"] = d["trigger"].value` performs on the stored
enum member. -/
def trigToStr : PyObj → PyObj
  | .trig t => .str t.value
  | x => x

/-- Conversion `d["created_at"] = int(d["created_at"].timestamp())`. -/
def dtToInt (lo : Rat) : PyObj → PyObj
  | .dt d => .int (pyTrunc (d.timestamp lo))
  | x => x

/-- Conversion `result["action"] = result["action"].value`. -/
def actToStr : PyObj → PyObj
  | .act a => .str a.value
  | x => x

/-- Conversion `result["status"] = result["status"].value`. -/
def wstatusToStr : PyObj → PyObj
  | .wstatus w => .str w.value
  | x => x

/-- Embedding of `Event.get_dict` (`service/events.py`): a deep copy of the
attribute dict (pure value copy here) with the `trigger` enum replaced by
its string value and `created_at` replaced by the integer epoch seconds of
its timestamp; `lo` is the ambient local-timezone offset `timestamp()`
consults for naive datetimes. -/
def eventGetDictBase (lo : Rat) (kvs : List (String × PyObj)) :
    List (String × PyObj) :=
  assocSet (assocSet kvs "trigger" trigToStr) "created_at" (dtToInt lo)

/-- The `PullRequestEvent` class of `service/events.py` with the fields its
constructor assigns (via `AbstractGithubEvent` and `Event`). -/
structure PullRequestEvent where
  trigger : JobTriggerType
  created_at : PyDatetime
  project_url : String
  action : PullRequestAction
  pr_id : Int
  base_repo_namespace : String
  base_repo_name : String
  base_ref : String
  target_repo : String
  commit_sha : String
  github_login : String
deriving Repr, DecidableEq

/-- Constructor of `PullRequestEvent`: the trigger is fixed to
`pull_request` and `created_at` defaults to construction time (`now`),
since no timestamp is forwarded to `Event.__init__`. -/
def mkPullRequestEvent (now : PyDatetime) (action : PullRequestAction)
    (pr_id : Int)
    (base_repo_namespace base_repo_name base_ref target_repo https_url
      commit_sha github_login : String) : PullRequestEvent :=
  { trigger := JobTriggerType.pull_request
    created_at := now
    project_url := https_url
    action := action
    pr_id := pr_id
    base_repo_namespace := base_repo_namespace
    base_repo_name := base_repo_name
    base_ref := base_ref
    target_repo := target_repo
    commit_sha := commit_sha
    github_login := github_login }

/-- Attribute dict of a `PullRequestEvent`, in assignment order. -/
def PullRequestEvent.attrDict (e : PullRequestEvent) : List (String × PyObj) :=
  [("trigger", .trig e.trigger),
   ("created_at", .dt e.created_at),
   ("project_url", .str e.project_url),
   ("action", .act e.action),
   ("pr_id", .int e.pr_id),
   ("base_repo_namespace", .str e.base_repo_namespace),
   ("base_repo_name", .str e.base_repo_name),
   ("base_ref", .str e.base_ref),
   ("target_repo", .str e.target_repo),
   ("commit_sha", .str e.commit_sha),
   ("github_login", .str e.github_login)]

/-- Embedding of `PullRequestEvent.get_dict`: the base serialization with
the `action` enum additionally replaced by its string value. -/
def PullRequestEvent.get_dict (lo : Rat) (e : PullRequestEvent) :
    List (String × PyObj) :=
  assocSet (eventGetDictBase lo e.attrDict) "action" actToStr

/-- The `InstallationEvent` class of `service/events.py` with the fields
its constructor assigns; payload-derived fields keep their raw values. -/
structure InstallationEvent where
  trigger : JobTriggerType
  created_at : PyDatetime
  installation_id : Val
  account_login : Val
  account_id : Val
  account_url : Val
  account_type : Val
  repositories : List Val
  sender_id : Val
  sender_login : Val
  status : WhitelistStatus
deriving Repr

/-- Constructor of `InstallationEvent`: the trigger is fixed to
`installation`, the payload `created_at` is normalized by `Event.__init__`
(which can raise on an invalid string), and `status` defaults to
`waiting`. -/
def mkInstallationEvent (now : PyDatetime) (installation_id : Val)
    (account_login account_id account_url account_type : Val)
    (created_at : Val) (repositories : List Val)
    (sender_id sender_login : Val) : Except PyErr InstallationEvent := do
  let ca ← eventCreatedAtVal now created_at
  Except.ok
    { trigger := JobTriggerType.installation
      created_at := ca
      installation_id := installation_id
      account_login := account_login
      account_id := account_id
      account_url := account_url
      account_type := account_type
      repositories := repositories
      sender_id := sender_id
      sender_login := sender_login
      status := WhitelistStatus.waiting }

/-- Attribute dict of an `InstallationEvent`, in assignment order. -/
def InstallationEvent.attrDict (e : InstallationEvent) : List (String × PyObj) :=
  [("trigger", .trig e.trigger),
   ("created_at", .dt e.created_at),
   ("installation_id", .val e.installation_id),
   ("account_login", .val e.account_login),
   ("account_id", .val e.account_id),
   ("account_url", .val e.account_url),
   ("account_type", .val e.account_type),
   ("repositories", .valList e.repositories),
   ("sender_id", .val e.sender_id),
   ("sender_login", .val e.sender_login),
   ("status", .wstatus e.status)]

/-- Embedding of `InstallationEvent.get_dict`: the base serialization with
the `status` enum additionally replaced by its string value. -/
def InstallationEvent.get_dict (lo : Rat) (e : InstallationEvent) :
    List (String × PyObj) :=
  assocSet (eventGetDictBase lo e.attrDict) "status" wstatusToStr

end Packit

namespace Packit

/-- Python negative-aware subscript `v[i]` with an integer index. -/
def pyIndex (v : Val) (i : Int) : Except PyErr Val :=
  match v with
  | .list xs =>
    let m : Int := if i < 0 then i + xs.length else i
    if h : 0 ≤ m ∧ m.toNat < xs.length then Except.ok (xs.get ⟨m.toNat, h.2⟩)
    else Except.error PyErr.indexError
  | .str s =>
    let cs := s.toList
    let m : Int := if i < 0 then i + cs.length else i
    if h : 0 ≤ m ∧ m.toNat < cs.length then
      Except.ok (Val.str (String.mk [cs.get ⟨m.toNat, h.2⟩]))
    else Except.error PyErr.indexError
  | .dict _ => Except.error (PyErr.keyError (toString i))
  | _ => Except.error PyErr.typeError

/-- Evaluation effect of a Python slice such as `x[:8]` inside the
parser's log lines: slicing succeeds on sequences and raises `TypeError`
otherwise; the sliced text itself is only logged. -/
def pySliceCheck (v : Val) : Except PyErr Unit :=
  match v with
  | .str _ => Except.ok ()
  | .list _ => Except.ok ()
  | _ => Except.error PyErr.typeError

/-- Python `len(v)` for the sized kinds; `TypeError` otherwise. -/
def pyLen (v : Val) : Except PyErr Int :=
  match v with
  | .str s => Except.ok s.length
  | .list xs => Except.ok xs.length
  | .dict kvs => Except.ok kvs.length
  | _ => Except.error PyErr.typeError

/-- Python iteration `for x in v`: list elements, dict keys, or the
characters of a string; `TypeError` for non-iterables. -/
def pyIter (v : Val) : Except PyErr (List Val) :=
  match v with
  | .list xs => Except.ok xs
  | .dict kvs => Except.ok (kvs.map (fun p => Val.str p.1))
  | .str s => Except.ok (s.toList.map (fun c => Val.str (String.mk [c])))
  | _ => Except.error PyErr.typeError

/-- Python `"k" in v` membership for dicts. -/
def Val.hasKey (v : Val) (k : String) : Bool :=
  match v with
  | .dict kvs => (lookupStr kvs k).isSome
  | _ => false

/-- Character-list core of Python `s.startswith(pre)`. -/
def startsWithChars : List Char → List Char → Bool
  | _, [] => true
  | [], _ :: _ => false
  | c :: cs, p :: ps => c == p && startsWithChars cs ps

/-- Python `s.startswith(pre)`. -/
def pyStartsWith (s pre : String) : Bool :=
  startsWithChars s.toList pre.toList

/-- Python `s.split("/", maxsplit=2)`: at most three parts, the last one
keeping any further separators. -/
def splitSlashMax2 (s : String) : List String :=
  match s.splitOn "/" with
  | a :: b :: c :: rest => [a, b, String.intercalate "/" (c :: rest)]
  | parts => parts

/-- Result of `ogr.parsing.parse_git_repo`: the namespace (`namespc` here,
as `namespace` is reserved) and repo name extracted from a project URL. -/
structure ParsedRepo where
  namespc : Val
  repo : Val
deriving Repr

/-- Record the external `TFTTestRunModel.get_by_pipeline_id` returns: the
stored commit sha, chroot target and the JSON data of a known test run. -/
structure TFTTestRun where
  commit_sha : Val
  target : Val
  data : Val
deriving Repr

/-- External collaborators of the parser, supplied by the environment:
`ogr.parsing.parse_git_repo`, the Testing Farm detail fetch
(`TestingFarmJobHelper.get_request_details`, falsy on failure or timeout),
the test-run DB lookup, the Copr build-record lookup (falsy when the build
is unknown), `xmltodict.parse`, the loaded service configuration's
mirroring rules, and the construction-time clock. -/
structure Externals where
  parseGitRepo : Val → ParsedRepo
  tfFetch : Val → Val
  tftLookup : Val → Option TFTTestRun
  coprGetBuild : Val → Val
  xmlParse : Val → Except PyErr Val
  projects_to_sync : List ProjectToSync
  now : PyDatetime

/-- Modelled from the spec: the dist-git commit topic
(`DistGitCommitHandler.topic`; the handler module is not under src/),
whose value `service/events.py` records as `FedmsgTopic.dist_git_push`. -/
def distGitCommitHandlerTopic : String :=
  "org.fedoraproject.prod.git.receive"

/-- Modelled from the spec: the fixed Testing Farm installability-test URL
constant (`constants.py` is not under src/); only its equality with a
payload URL is observed. -/
def TESTING_FARM_INSTALLABILITY_TEST_URL : String :=
  "https://gitlab.com/testing-farm/tests"

/-- The parser-side event records below carry exactly the fields their
constructors receive in `parser.py`; the base-class fields (the per-class
fixed trigger and the construction-time `created_at`) are omitted where no
claim observes them. Classes absent from the tracked sources are modelled
from their call sites and §3 of the spec. -/
structure PullRequestGithubEvent where
  action : PullRequestAction
  pr_id : Val
  base_repo_namespace : Val
  base_repo_name : Val
  base_ref : Val
  target_repo_namespace : Val
  target_repo_name : Val
  project_url : Val
  commit_sha : Val
  user_login : Val
deriving Repr

/-- Gitlab merge-request event, from its `parser.py` call site. -/
structure MergeRequestGitlabEvent where
  action : GitlabEventAction
  username : Val
  object_id : Val
  object_iid : Val
  source_repo_namespace : Val
  source_repo_name : Val
  source_repo_branch : Val
  target_repo_namespace : Val
  target_repo_name : Val
  target_repo_branch : Val
  project_url : Val
  commit_sha : Val
deriving Repr

/-- GitHub push event, from its `parser.py` call site. -/
structure PushGitHubEvent where
  repo_namespace : Val
  repo_name : Val
  git_ref : String
  project_url : Val
  commit_sha : Val
deriving Repr

/-- Gitlab push event, from its `parser.py` call site. -/
structure PushGitlabEvent where
  repo_namespace : Val
  repo_name : Val
  git_ref : String
  project_url : Val
  commit_sha : Val
deriving Repr

/-- GitHub issue-comment event (`service/events.py`), with the defaulted
`tag_name` and `base_ref` constructor parameters. -/
structure IssueCommentEvent where
  action : IssueCommentAction
  issue_id : Val
  base_repo_namespace : Val
  base_repo_name : Val
  target_repo : Val
  project_url : Val
  github_login : Val
  comment : Val
  tag_name : String := ""
  base_ref : String := "master"
deriving Repr

/-- Gitlab issue-comment event, from its `parser.py` call site. -/
structure IssueCommentGitlabEvent where
  action : GitlabEventAction
  issue_id : Val
  repo_namespace : Val
  repo_name : Val
  project_url : Val
  username : Val
  comment : Val
deriving Repr

/-- Gitlab merge-request comment event, from its `parser.py` call site. -/
structure MergeRequestCommentGitlabEvent where
  action : GitlabEventAction
  object_id : Val
  object_iid : Val
  source_repo_namespace : Val
  source_repo_name : Val
  target_repo_namespace : Val
  target_repo_name : Val
  project_url : Val
  username : Val
  comment : Val
  commit_sha : Val
deriving Repr

/-- GitHub pull-request comment event, from its `parser.py` call site. -/
structure PullRequestCommentGithubEvent where
  action : PullRequestCommentAction
  pr_id : Val
  base_repo_namespace : Val
  base_repo_name : Val
  base_ref : Val
  target_repo_namespace : Val
  target_repo_name : Val
  project_url : Val
  user_login : Val
  comment : Val
deriving Repr

/-- GitHub release event (`service/events.py`). -/
structure ReleaseEvent where
  repo_namespace : Val
  repo_name : Val
  tag_name : Val
  project_url : Val
deriving Repr

/-- Dist-git commit event, from its `parser.py` call site; the upstream
fields come from the matched mirroring rule. -/
structure DistGitCommitEvent where
  topic : Val
  repo_namespace : String
  repo_name : String
  branch : String
  project_url : String
  dg_repo_namespace : Val
  dg_repo_name : Val
  dg_branch : Val
  dg_rev : Val
  dg_project_url : String
deriving Repr

/-- One decoded per-test outcome (`TestResult`). -/
structure TestResult where
  name : Val
  result : TestingFarmResult
  log_url : Val
deriving Repr

/-- Testing Farm results event, from its `parser.py` call site. -/
structure TestingFarmResultsEvent where
  pipeline_id : Val
  result : TestingFarmResult
  compose : Val
  summary : Val
  log_url : String
  copr_build_id : Val
  copr_chroot : Val
  tests : List TestResult
  commit_sha : Val
  project_url : Val
deriving Repr

/-- Kind tag distinguishing `CoprBuildStartEvent` from `CoprBuildEndEvent`. -/
inductive CoprBuildKind where
  | start
  | finish
deriving Repr, DecidableEq

/-- Modelled from the spec: the Copr build event reconstructed from a build
identifier via the recorded-build store (§4.3); it carries the bus-message
fields and the looked-up build record. -/
structure AbstractCoprBuildEvent where
  kind : CoprBuildKind
  topic : Val
  build_id : Val
  build : Val
  chroot : Val
  status : Val
  owner : Val
  project_name : Val
  pkg : Val
  timestamp : Val
deriving Repr

/-- Koji build event, from its `parser.py` call site. -/
structure KojiBuildEvent where
  build_id : Val
  state : Option KojiBuildState
  old_state : Option KojiBuildState
  start_time : Val
  completion_time : Val
  rpm_build_task_id : Val
deriving Repr

end Packit

namespace Packit

namespace Parser

/-- Embedding of `Parser.parse_mr_event`: recognize a new gitlab MR.
Payloads in the non-`opened` state are rejected before the action is
inspected; the action label only replaces a value outside
`{reopen, update}` with the state. -/
def parse_mr_event (ext : Externals) (event : Val) :
    Except PyErr (Option MergeRequestGitlabEvent) :=
  if !(pyEq (event.get "object_kind") "merge_request") then Except.ok Option.none
  else match event.sub "object_attributes" with
  | .error e => .error e
  | .ok oa =>
  match oa.sub "state" with
  | .error e => .error e
  | .ok state =>
  if !(pyEq state "opened") then Except.ok Option.none
  else
  let action0 := nested_get event [.s "object_attributes", .s "action"]
  let action := if pyEq action0 "reopen" || pyEq action0 "update" then action0 else state
  match event.sub "user" with
  | .error e => .error e
  | .ok user =>
  match user.sub "username" with
  | .error e => .error e
  | .ok username =>
  if !username.truthy then Except.ok Option.none
  else match oa.sub "id" with
  | .error e => .error e
  | .ok object_id =>
  if !object_id.truthy then Except.ok Option.none
  else match oa.sub "iid" with
  | .error e => .error e
  | .ok object_iid =>
  if !object_iid.truthy then Except.ok Option.none
  else
  let source_project_url := nested_get event [.s "object_attributes", .s "source", .s "web_url"]
  if !source_project_url.truthy then Except.ok Option.none
  else
  let parsed_source_url := ext.parseGitRepo source_project_url
  let source_repo_branch := nested_get event [.s "object_attributes", .s "source_branch"]
  let target_project_url := nested_get event [.s "project", .s "web_url"]
  if !target_project_url.truthy then Except.ok Option.none
  else
  let parsed_target_url := ext.parseGitRepo target_project_url
  let target_repo_branch := nested_get event [.s "object_attributes", .s "target_branch"]
  let commit_sha := nested_get event [.s "object_attributes", .s "last_commit", .s "id"]
  match GitlabEventAction.byName action with
  | Option.none => .error (PyErr.keyError (pyStr action))
  | Option.some a =>
    Except.ok (Option.some
      { action := a
        username := username
        object_id := object_id
        object_iid := object_iid
        source_repo_namespace := parsed_source_url.namespc
        source_repo_name := parsed_source_url.repo
        source_repo_branch := source_repo_branch
        target_repo_namespace := parsed_target_url.namespc
        target_repo_name := parsed_target_url.repo
        target_repo_branch := target_repo_branch
        project_url := target_project_url
        commit_sha := commit_sha })

/-- Embedding of `Parser.parse_pr_event`: recognize a new github PR. -/
def parse_pr_event (event : Val) :
    Except PyErr (Option PullRequestGithubEvent) :=
  if !(event.get "pull_request").truthy then Except.ok Option.none
  else
  let pr_id := event.get "number"
  let action := event.get "action"
  if !((pyEq action "opened" || pyEq action "reopened" || pyEq action "synchronize")
        && pr_id.truthy) then Except.ok Option.none
  else
  let base_repo_namespace :=
    nested_get event [.s "pull_request", .s "head", .s "repo", .s "owner", .s "login"]
  let base_repo_name := nested_get event [.s "pull_request", .s "head", .s "repo", .s "name"]
  if !(base_repo_name.truthy && base_repo_namespace.truthy) then Except.ok Option.none
  else
  let base_ref := nested_get event [.s "pull_request", .s "head", .s "sha"]
  if !base_ref.truthy then Except.ok Option.none
  else
  let user_login := nested_get event [.s "pull_request", .s "user", .s "login"]
  if !user_login.truthy then Except.ok Option.none
  else
  let target_repo_namespace :=
    nested_get event [.s "pull_request", .s "base", .s "repo", .s "owner", .s "login"]
  let target_repo_name := nested_get event [.s "pull_request", .s "base", .s "repo", .s "name"]
  let commit_sha := nested_get event [.s "pull_request", .s "head", .s "sha"]
  match event.sub "repository" with
  | .error e => .error e
  | .ok repository =>
  match repository.sub "html_url" with
  | .error e => .error e
  | .ok https_url =>
  match PullRequestAction.byName action with
  | Option.none => .error (PyErr.keyError (pyStr action))
  | Option.some a =>
    Except.ok (Option.some
      { action := a
        pr_id := pr_id
        base_repo_namespace := base_repo_namespace
        base_repo_name := base_repo_name
        base_ref := base_ref
        target_repo_namespace := target_repo_namespace
        target_repo_name := target_repo_name
        project_url := https_url
        commit_sha := commit_sha
        user_login := user_login })

/-- Embedding of `Parser.parse_gitlab_push_event`: recognize a push to a
gitlab branch; an `after` commit starting with the zero sentinel marks a
branch deletion and yields no event. -/
def parse_gitlab_push_event (ext : Externals) (event : Val) :
    Except PyErr (Option PushGitlabEvent) :=
  if !(pyEq (event.get "object_kind") "push") then Except.ok Option.none
  else
  let raw_ref := event.get "ref"
  let before := event.get "before"
  let pusher := event.get "user_username"
  let commits := event.get "commits"
  if !(raw_ref.truthy && commits.truthy && before.truthy && pusher.truthy) then
    Except.ok Option.none
  else match event.get "after" with
  | .str after =>
    if pyStartsWith after "0000000" then Except.ok Option.none
    else
    match raw_ref with
    | .str raw_ref_s =>
      let parts := splitSlashMax2 raw_ref_s
      let ref := parts.getLast! 
      match pyIndex commits (-1) with
      | .error e => .error e
      | .ok lastCommit =>
      match lastCommit.sub "id" with
      | .error e => .error e
      | .ok head_commit =>
      match pySliceCheck before with
      | .error e => .error e
      | .ok _ =>
      match pySliceCheck head_commit with
      | .error e => .error e
      | .ok _ =>
      let project_url := nested_get event [.s "project", .s "web_url"]
      if !project_url.truthy then Except.ok Option.none
      else
      let parsed_url := ext.parseGitRepo project_url
      Except.ok (Option.some
        { repo_namespace := parsed_url.namespc
          repo_name := parsed_url.repo
          git_ref := ref
          project_url := project_url
          commit_sha := head_commit })
    | _ => .error PyErr.attributeError
  | _ => .error PyErr.attributeError

/-- Embedding of `Parser.parse_push_event`: recognize a push to a github
branch; a payload with the `deleted` flag set marks a branch deletion and
yields no event. -/
def parse_push_event (event : Val) : Except PyErr (Option PushGitHubEvent) :=
  let raw_ref := event.get "ref"
  let before := event.get "before"
  let pusher := nested_get event [.s "pusher", .s "name"]
  let head_commit := pyOr (event.get "head") (pyOr (event.get "after") (event.get "head_commit"))
  if !(raw_ref.truthy && head_commit.truthy && before.truthy && pusher.truthy) then
    Except.ok Option.none
  else if (event.get "deleted").truthy then Except.ok Option.none
  else
  let number_of_commits := event.get "size"
  match (if number_of_commits matches Val.none then
           (if event.hasKey "commits" then (pyLen (event.get "commits")).map (fun _ => ())
            else Except.ok ())
         else Except.ok () : Except PyErr Unit) with
  | .error e => .error e
  | .ok _ =>
  match raw_ref with
  | .str raw_ref_s =>
    let ref := (splitSlashMax2 raw_ref_s).getLast!
    match pySliceCheck before with
    | .error e => .error e
    | .ok _ =>
    match pySliceCheck head_commit with
    | .error e => .error e
    | .ok _ =>
    let repo_namespace := nested_get event [.s "repository", .s "owner", .s "login"]
    let repo_name := nested_get event [.s "repository", .s "name"]
    if !(repo_namespace.truthy && repo_name.truthy) then Except.ok Option.none
    else
    let repo_url := nested_get event [.s "repository", .s "html_url"]
    Except.ok (Option.some
      { repo_namespace := repo_namespace
        repo_name := repo_name
        git_ref := ref
        project_url := repo_url
        commit_sha := head_commit })
  | _ => .error PyErr.attributeError

end Parser

end Packit

namespace Packit

namespace Parser

/-- Embedding of `Parser.parse_issue_comment_event`: recognize a github
issue comment; a missing repository full name is only logged, not
rejected. -/
def parse_issue_comment_event (event : Val) :
    Except PyErr (Option IssueCommentEvent) :=
  if (nested_get event [.s "issue", .s "pull_request"]).truthy then Except.ok Option.none
  else
  let issue_id := nested_get event [.s "issue", .s "number"]
  let action := event.get "action"
  let comment := nested_get event [.s "comment", .s "body"]
  if !(pyEq action "created" && issue_id.truthy && comment.truthy) then Except.ok Option.none
  else
  let base_repo_namespace := nested_get event [.s "repository", .s "owner", .s "login"]
  let base_repo_name := nested_get event [.s "repository", .s "name"]
  let user_login := nested_get event [.s "comment", .s "user", .s "login"]
  if !user_login.truthy then Except.ok Option.none
  else
  let target_repo := nested_get event [.s "repository", .s "full_name"]
  let https_url := nested_get event [.s "repository", .s "html_url"]
  match IssueCommentAction.byName action with
  | Option.none => .error (PyErr.keyError (pyStr action))
  | Option.some a =>
    Except.ok (Option.some
      { action := a
        issue_id := issue_id
        base_repo_namespace := base_repo_namespace
        base_repo_name := base_repo_name
        target_repo := target_repo
        project_url := https_url
        github_login := user_login
        comment := comment })

/-- Embedding of `Parser.parse_gitlab_issue_comment_event`: recognize a
gitlab issue comment on an issue in the `opened` state. -/
def parse_gitlab_issue_comment_event (ext : Externals) (event : Val) :
    Except PyErr (Option IssueCommentGitlabEvent) :=
  if !(pyEq (event.get "object_kind") "note") then Except.ok Option.none
  else
  let issue := event.get "issue"
  if !issue.truthy then Except.ok Option.none
  else
  let issue_id := nested_get event [.s "issue", .s "iid"]
  if !issue_id.truthy then Except.ok Option.none
  else
  let comment := nested_get event [.s "object_attributes", .s "note"]
  if !comment.truthy then Except.ok Option.none
  else
  let state := nested_get event [.s "issue", .s "state"]
  if !state.truthy then Except.ok Option.none
  else if !(pyEq state "opened") then Except.ok Option.none
  else
  let action0 := nested_get event [.s "object_attributes", .s "action"]
  let action := if pyEq action0 "reopen" || pyEq action0 "update" then action0 else state
  let project_url := nested_get event [.s "project", .s "web_url"]
  if !project_url.truthy then Except.ok Option.none
  else
  let parsed_url := ext.parseGitRepo project_url
  let username := nested_get event [.s "user", .s "username"]
  if !username.truthy then Except.ok Option.none
  else
  match GitlabEventAction.byName action with
  | Option.none => .error (PyErr.keyError (pyStr action))
  | Option.some a =>
    Except.ok (Option.some
      { action := a
        issue_id := issue_id
        repo_namespace := parsed_url.namespc
        repo_name := parsed_url.repo
        project_url := project_url
        username := username
        comment := comment })

/-- Embedding of `Parser.parse_merge_request_comment_event`: recognize a
gitlab MR comment on an MR in the `opened` state; missing ids are only
logged. -/
def parse_merge_request_comment_event (ext : Externals) (event : Val) :
    Except PyErr (Option MergeRequestCommentGitlabEvent) :=
  if !(pyEq (event.get "object_kind") "note") then Except.ok Option.none
  else
  let merge_request := event.get "merge_request"
  if !merge_request.truthy then Except.ok Option.none
  else
  let state := nested_get event [.s "merge_request", .s "state"]
  if !(pyEq state "opened") then Except.ok Option.none
  else
  let action0 := nested_get event [.s "merge_request", .s "action"]
  let action := if pyEq action0 "reopen" || pyEq action0 "update" then action0 else state
  let object_iid := nested_get event [.s "merge_request", .s "iid"]
  let object_id := nested_get event [.s "merge_request", .s "id"]
  let comment := nested_get event [.s "object_attributes", .s "note"]
  let source_project_url := nested_get event [.s "merge_request", .s "source", .s "web_url"]
  if !source_project_url.truthy then Except.ok Option.none
  else
  let parsed_source_url := ext.parseGitRepo source_project_url
  let target_project_url := nested_get event [.s "project", .s "web_url"]
  if !target_project_url.truthy then Except.ok Option.none
  else
  let parsed_target_url := ext.parseGitRepo target_project_url
  let username := nested_get event [.s "user", .s "username"]
  if !username.truthy then Except.ok Option.none
  else
  let commit_sha := nested_get event [.s "merge_request", .s "last_commit", .s "id"]
  if !commit_sha.truthy then Except.ok Option.none
  else
  match GitlabEventAction.byName action with
  | Option.none => .error (PyErr.keyError (pyStr action))
  | Option.some a =>
    Except.ok (Option.some
      { action := a
        object_id := object_id
        object_iid := object_iid
        source_repo_namespace := parsed_source_url.namespc
        source_repo_name := parsed_source_url.repo
        target_repo_namespace := parsed_target_url.namespc
        target_repo_name := parsed_target_url.repo
        project_url := target_project_url
        username := username
        comment := comment
        commit_sha := commit_sha })

/-- Embedding of `Parser.parse_pull_request_comment_event`: recognize a
github PR comment; comments authored by the service's own bot logins are
dropped, and the produced event's `base_repo_name` and `base_ref` are the
literal `None` at the call site. -/
def parse_pull_request_comment_event (event : Val) :
    Except PyErr (Option PullRequestCommentGithubEvent) :=
  if !(nested_get event [.s "issue", .s "pull_request"]).truthy then Except.ok Option.none
  else
  let pr_id := nested_get event [.s "issue", .s "number"]
  let action := event.get "action"
  if !((pyEq action "created" || pyEq action "edited") && pr_id.truthy) then
    Except.ok Option.none
  else
  let comment := nested_get event [.s "comment", .s "body"]
  let base_repo_namespace := nested_get event [.s "issue", .s "user", .s "login"]
  let base_repo_name := nested_get event [.s "repository", .s "name"]
  if !(base_repo_name.truthy && base_repo_namespace.truthy) then Except.ok Option.none
  else
  let user_login := nested_get event [.s "comment", .s "user", .s "login"]
  if !user_login.truthy then Except.ok Option.none
  else if pyEq user_login "packit-as-a-service[bot]"
       || pyEq user_login "packit-as-a-service-stg[bot]" then Except.ok Option.none
  else
  let target_repo_namespace := nested_get event [.s "repository", .s "owner", .s "login"]
  let target_repo_name := nested_get event [.s "repository", .s "name"]
  match event.sub "repository" with
  | .error e => .error e
  | .ok repository =>
  match repository.sub "html_url" with
  | .error e => .error e
  | .ok https_url =>
  match PullRequestCommentAction.byName action with
  | Option.none => .error (PyErr.keyError (pyStr action))
  | Option.some a =>
    Except.ok (Option.some
      { action := a
        pr_id := pr_id
        base_repo_namespace := base_repo_namespace
        base_repo_name := Val.none
        base_ref := Val.none
        target_repo_namespace := target_repo_namespace
        target_repo_name := target_repo_name
        project_url := https_url
        user_login := user_login
        comment := comment })

/-- Embedding of `Parser.parse_installation_event`: recognize a Github App
installation; the payload `created_at` passes through the `Event.__init__`
normalization, and the repository list is rebuilt by value. -/
def parse_installation_event (ext : Externals) (event : Val) :
    Except PyErr (Option InstallationEvent) :=
  if !(nested_get event [.s "installation", .s "account"]).truthy then Except.ok Option.none
  else match event.sub "action" with
  | .error e => .error e
  | .ok action =>
  if !(pyEq action "created" || pyEq action "added") then Except.ok Option.none
  else match event.sub "installation" with
  | .error e => .error e
  | .ok installation =>
  match installation.sub "id" with
  | .error e => .error e
  | .ok installation_id =>
  let repositories := pyOr (event.get "repositories") (event.get "repositories_added" (.list []))
  match pyIter repositories with
  | .error e => .error e
  | .ok repoItems =>
  match repoItems.mapM (fun repo => repo.sub "full_name") with
  | .error e => .error e
  | .ok repo_names =>
  match event.sub "sender" with
  | .error e => .error e
  | .ok sender =>
  match installation.sub "account" with
  | .error e => .error e
  | .ok account =>
  match account.sub "login" with
  | .error e => .error e
  | .ok account_login =>
  match account.sub "id" with
  | .error e => .error e
  | .ok account_id =>
  match account.sub "url" with
  | .error e => .error e
  | .ok account_url =>
  match account.sub "type" with
  | .error e => .error e
  | .ok account_type =>
  match installation.sub "created_at" with
  | .error e => .error e
  | .ok created_at =>
  match sender.sub "id" with
  | .error e => .error e
  | .ok sender_id =>
  match sender.sub "login" with
  | .error e => .error e
  | .ok sender_login =>
  match mkInstallationEvent ext.now installation_id account_login account_id
      account_url account_type created_at repo_names sender_id sender_login with
  | .error e => .error e
  | .ok ev => Except.ok (Option.some ev)

/-- Embedding of `Parser.parse_release_event`: recognize a published
github release. -/
def parse_release_event (event : Val) : Except PyErr (Option ReleaseEvent) :=
  let action := event.get "action"
  let release := event.get "release"
  if !(pyEq action "published" && release.truthy) then Except.ok Option.none
  else
  let repo_namespace := nested_get event [.s "repository", .s "owner", .s "login"]
  let repo_name := nested_get event [.s "repository", .s "name"]
  if !(repo_namespace.truthy && repo_name.truthy) then Except.ok Option.none
  else
  let release_ref := nested_get event [.s "release", .s "tag_name"]
  if !release_ref.truthy then Except.ok Option.none
  else match event.sub "repository" with
  | .error e => .error e
  | .ok repository =>
  match repository.sub "html_url" with
  | .error e => .error e
  | .ok https_url =>
    Except.ok (Option.some
      { repo_namespace := repo_namespace
        repo_name := repo_name
        tag_name := release_ref
        project_url := https_url })

end Parser

end Packit

namespace Packit

namespace Parser

/-- Embedding of `Parser.parse_distgit_commit_event`: recognize a dist-git
commit push; after the shape checks, the configured mirroring rules are
consulted by downstream repo name and branch, and a payload without a
matching rule yields no event. -/
def parse_distgit_commit_event (ext : Externals) (event : Val) :
    Except PyErr (Option DistGitCommitEvent) :=
  let topic := event.get "topic"
  if !(pyEq topic distGitCommitHandlerTopic) then Except.ok Option.none
  else
  let dg_repo_namespace := nested_get event [.s "commit", .s "namespace"]
  let dg_repo_name := nested_get event [.s "commit", .s "repo"]
  if !(dg_repo_namespace.truthy && dg_repo_name.truthy) then Except.ok Option.none
  else
  let dg_branch := nested_get event [.s "commit", .s "branch"]
  let dg_rev := nested_get event [.s "commit", .s "rev"]
  if !(dg_branch.truthy && dg_rev.truthy) then Except.ok Option.none
  else
  match get_project_to_sync ext.projects_to_sync dg_repo_name dg_branch with
  | Option.none => Except.ok Option.none
  | Option.some project_to_sync =>
    let upstream_project_url :=
      project_to_sync.forge ++ "/" ++ project_to_sync.repo_namespace ++ "/"
        ++ project_to_sync.repo_name
    let dg_project_url :=
      "https://src.fedoraproject.org/" ++ pyStr dg_repo_namespace ++ "/" ++ pyStr dg_repo_name
    Except.ok (Option.some
      { topic := topic
        repo_namespace := project_to_sync.repo_namespace
        repo_name := project_to_sync.repo_name
        branch := project_to_sync.branch
        project_url := upstream_project_url
        dg_repo_namespace := dg_repo_namespace
        dg_repo_name := dg_repo_name
        dg_branch := dg_branch
        dg_rev := dg_rev
        dg_project_url := dg_project_url })

/-- Decoding of one `testcase` node inside the xunit comprehension of
`Parser._parse_tf_result_xunit`: subscripting a non-mapping raises
`TypeError`, a mapping without the attribute raises `KeyError`, and an
unknown result value raises `ValueError`. -/
def tfTestcaseDecode (testcase : Val) : Except PyErr TestResult :=
  match testcase.sub "@name" with
  | .error e => .error e
  | .ok nameV =>
  match testcase.sub "@result" with
  | .error e => .error e
  | .ok resV =>
  match TestingFarmResult.ofVal resV with
  | Option.none => .error (PyErr.valueError (pyStr resV))
  | Option.some r =>
    Except.ok
      { name := nameV
        result := r
        log_url := nested_get testcase [.s "logs", .s "log", .i 1, .s "@href"] (.str "") }

/-- The `try` body of `Parser._parse_tf_result_xunit`: iterate the decoded
`testcase` collection and decode each node. -/
def tfComprehension (testcases : Val) : Except PyErr (List TestResult) :=
  match pyIter testcases with
  | .error e => .error e
  | .ok items => items.mapM tfTestcaseDecode

/-- Embedding of `Parser._parse_tf_result_xunit`: decode the XML
test-report fragment into per-test outcomes. Only a `TypeError` raised by
the comprehension is caught and degraded to the empty list; any other
failure (including a `xmltodict.parse` failure on malformed XML)
propagates. -/
def parse_tf_result_xunit (ext : Externals) (xunit : Val) :
    Except PyErr (List TestResult) :=
  if !xunit.truthy then Except.ok []
  else match ext.xmlParse xunit with
  | .error e => .error e
  | .ok xunit_dict =>
    let testcases :=
      nested_get xunit_dict [.s "testsuites", .s "testsuite", .s "testcase"] (.list [])
    match tfComprehension testcases with
    | .ok results => Except.ok results
    | .error PyErr.typeError => Except.ok []
    | .error e => .error e

/-- Embedding of `Parser.parse_testing_farm_results_event`: recognize a
Testing Farm notification; the synchronous detail fetch is mandatory, and
a falsy fetch result raises instead of yielding no event. -/
def parse_testing_farm_results_event (ext : Externals) (event : Val) :
    Except PyErr (Option TestingFarmResultsEvent) :=
  if !(pyEq (event.get "source") "testing-farm" && (event.get "request_id").truthy) then
    Except.ok Option.none
  else match event.sub "request_id" with
  | .error e => .error e
  | .ok request_id =>
  let tft_test_run := ext.tftLookup request_id
  let detail := ext.tfFetch request_id
  if !detail.truthy then
    .error (PyErr.exception ("Failed to get " ++ pyStr request_id ++ " details from TF."))
  else
  let resultV := pyOr (nested_get detail [.s "result", .s "overall"])
    (pyOr (detail.get "state") (.str "unknown"))
  match TestingFarmResult.ofVal resultV with
  | Option.none => .error (PyErr.valueError (pyStr resultV))
  | Option.some result =>
  let summary := pyOr (nested_get detail [.s "result", .s "summary"]) (.str "")
  let env := nested_get detail [.s "environments_requested", .i 0] (.dict [])
  let compose := nested_get env [.s "os", .s "compose"]
  match parse_tf_result_xunit ext (nested_get detail [.s "result", .s "xunit"]) with
  | .error e => .error e
  | .ok tests =>
  let ref0 := nested_get detail [.s "test", .s "fmf", .s "ref"]
  let project_url0 := nested_get detail [.s "test", .s "fmf", .s "url"]
  let ref := match tft_test_run with
    | Option.some run => run.commit_sha
    | Option.none => ref0
  match (if pyEq project_url0 TESTING_FARM_INSTALLABILITY_TEST_URL then
           Except.ok (Val.str "", Val.str "")
         else
           let artifact := nested_get env [.s "artifacts", .i 0] (.dict [])
           let a_type := artifact.get "type"
           if pyEq a_type "fedora-copr-build" then
             match artifact.sub "id" with
             | .error e => .error e
             | .ok idV =>
               match idV with
               | .str idS =>
                 let pieces := idS.splitOn ":"
                 match pieces.head?, pieces.drop 1 |>.head? with
                 | Option.some p0, Option.some p1 =>
                   Except.ok (Val.str p0, Val.str p1)
                 | _, _ => .error PyErr.indexError
               | _ => .error PyErr.attributeError
           else Except.ok (Val.str "", Val.str "") : Except PyErr (Val × Val)) with
  | .error e => .error e
  | .ok (copr_build_id, copr_chroot0) =>
  let copr_chroot :=
    if !copr_chroot0.truthy then
      match tft_test_run with
      | Option.some run => run.target
      | Option.none => copr_chroot0
    else copr_chroot0
  let project_url :=
    match tft_test_run with
    | Option.some run =>
      if run.data.truthy then
        let base_project_url := run.data.get "base_project_url"
        if base_project_url.truthy && !(Val.beq base_project_url project_url0) then
          base_project_url
        else project_url0
      else project_url0
    | Option.none => project_url0
  let log_url := "http://artifacts.dev.testing-farm.io/" ++ pyStr request_id
  Except.ok (Option.some
    { pipeline_id := request_id
      result := result
      compose := compose
      summary := summary
      log_url := log_url
      copr_build_id := copr_build_id
      copr_chroot := copr_chroot
      tests := tests
      commit_sha := ref
      project_url := project_url })

/-- Modelled from the spec: `AbstractCoprBuildEvent.from_build_id` (§4.3;
the events module defining it is not under src/) — reconstruction of a
Copr build event from the build identifier via the recorded-build store;
a build the store does not know yields no event, with a warning. -/
def coprBuildFromBuildId (ext : Externals) (kind : CoprBuildKind)
    (topic build_id chroot status owner project_name pkg timestamp : Val) :
    Option AbstractCoprBuildEvent :=
  let build := ext.coprGetBuild build_id
  if !build.truthy then Option.none
  else Option.some
    { kind := kind
      topic := topic
      build_id := build_id
      build := build
      chroot := chroot
      status := status
      owner := owner
      project_name := project_name
      pkg := pkg
      timestamp := timestamp }

/-- Embedding of `Parser.parse_copr_event`: recognize a Copr build-start or
build-end bus message by topic and reconstruct the event from the build
id. -/
def parse_copr_event (ext : Externals) (event : Val) :
    Except PyErr (Option AbstractCoprBuildEvent) :=
  let topic := event.get "topic"
  match (if pyEq topic "org.fedoraproject.prod.copr.build.start" then
           Option.some CoprBuildKind.start
         else if pyEq topic "org.fedoraproject.prod.copr.build.end" then
           Option.some CoprBuildKind.finish
         else Option.none) with
  | Option.none => Except.ok Option.none
  | Option.some kind =>
    let build_id := event.get "build"
    let chroot := event.get "chroot"
    let status := event.get "status"
    let owner := event.get "owner"
    let project_name := event.get "copr"
    let pkg := event.get "pkg"
    let timestamp := event.get "timestamp"
    Except.ok (coprBuildFromBuildId ext kind topic build_id chroot status owner
      project_name pkg timestamp)

/-- Embedding of `Parser.parse_koji_event`: recognize a Koji task
state-change bus message; `new`/`old` states are converted through the
closed `KojiBuildState` enumeration when the keys are present, and the
RPM-build sub-task id is the id of the first `buildArch` child. -/
def parse_koji_event (event : Val) : Except PyErr (Option KojiBuildEvent) :=
  if !(pyEq (event.get "topic") "org.fedoraproject.prod.buildsys.task.state.change") then
    Except.ok Option.none
  else
  let build_id := event.get "id"
  let state := nested_get event [.s "info", .s "state"]
  if !state.truthy then Except.ok Option.none
  else
  match (if event.hasKey "new" then
           match KojiBuildState.ofVal (event.get "new") with
           | Option.some s => Except.ok (Option.some s)
           | Option.none => .error (PyErr.valueError (pyStr (event.get "new")))
         else Except.ok Option.none : Except PyErr (Option KojiBuildState)) with
  | .error e => .error e
  | .ok state_enum =>
  match (if event.hasKey "old" then
           match KojiBuildState.ofVal (event.get "old") with
           | Option.some s => Except.ok (Option.some s)
           | Option.none => .error (PyErr.valueError (pyStr (event.get "old")))
         else Except.ok Option.none : Except PyErr (Option KojiBuildState)) with
  | .error e => .error e
  | .ok old_state =>
  let start_time := nested_get event [.s "info", .s "start_time"]
  let completion_time := nested_get event [.s "info", .s "completion_time"]
  match pyIter (nested_get event [.s "info", .s "children"] (.list [])) with
  | .error e => .error e
  | .ok children =>
  let rpm_build_task_id :=
    match children.find? (fun child => pyEq (child.get "method") "buildArch") with
    | Option.some child => child.get "id"
    | Option.none => Val.none
  Except.ok (Option.some
    { build_id := build_id
      state := state_enum
      old_state := old_state
      start_time := start_time
      completion_time := completion_time
      rpm_build_task_id := rpm_build_task_id })

end Parser

end Packit

namespace Packit

/-- The union of canonical event variants `Parser.parse_event` can return. -/
inductive AnyEvent where
  | pr (e : PullRequestGithubEvent)
  | prComment (e : PullRequestCommentGithubEvent)
  | issueComment (e : IssueCommentEvent)
  | release (e : ReleaseEvent)
  | push (e : PushGitHubEvent)
  | installation (e : InstallationEvent)
  | distGitCommit (e : DistGitCommitEvent)
  | testingFarmResults (e : TestingFarmResultsEvent)
  | coprBuild (e : AbstractCoprBuildEvent)
  | mr (e : MergeRequestGitlabEvent)
  | kojiBuild (e : KojiBuildEvent)
  | mrComment (e : MergeRequestCommentGitlabEvent)
  | gitlabIssueComment (e : IssueCommentGitlabEvent)
  | gitlabPush (e : PushGitlabEvent)
deriving Repr

namespace Parser

/-- Tag an extractor's result into the union type. -/
def tagged {α : Type} (f : α → AnyEvent) (r : Except PyErr (Option α)) :
    Except PyErr (Option AnyEvent) :=
  match r with
  | .error e => .error e
  | .ok Option.none => Except.ok Option.none
  | .ok (Option.some x) => Except.ok (Option.some (f x))

/-- Results of the fourteen extractors applied to one payload, in exactly
the priority order `Parser.parse_event` lists them. -/
def chainResults (ext : Externals) (event : Val) :
    List (Except PyErr (Option AnyEvent)) :=
  [tagged AnyEvent.pr (parse_pr_event event),
   tagged AnyEvent.prComment (parse_pull_request_comment_event event),
   tagged AnyEvent.issueComment (parse_issue_comment_event event),
   tagged AnyEvent.release (parse_release_event event),
   tagged AnyEvent.push (parse_push_event event),
   tagged AnyEvent.installation (parse_installation_event ext event),
   tagged AnyEvent.distGitCommit (parse_distgit_commit_event ext event),
   tagged AnyEvent.testingFarmResults (parse_testing_farm_results_event ext event),
   tagged AnyEvent.coprBuild (parse_copr_event ext event),
   tagged AnyEvent.mr (parse_mr_event ext event),
   tagged AnyEvent.kojiBuild (parse_koji_event event),
   tagged AnyEvent.mrComment (parse_merge_request_comment_event ext event),
   tagged AnyEvent.gitlabIssueComment (parse_gitlab_issue_comment_event ext event),
   tagged AnyEvent.gitlabPush (parse_gitlab_push_event ext event)]

/-- First-match-wins loop body of `Parser.parse_event`: walk the results in
order, return the first truthy (non-`None`) response, propagate a raised
exception, and fall through to `None` when every extractor declined. -/
def firstResult : List (Except PyErr (Option AnyEvent)) →
    Except PyErr (Option AnyEvent)
  | [] => Except.ok Option.none
  | r :: rs =>
    match r with
    | .error e => .error e
    | .ok (Option.some ev) => Except.ok (Option.some ev)
    | .ok Option.none => firstResult rs

/-- Embedding of `Parser.parse_event`: a falsy payload is rejected at once;
otherwise the extractor chain is evaluated in its fixed order with the
first truthy response returned. -/
def parse_event (ext : Externals) (event : Val) : Except PyErr (Option AnyEvent) :=
  if !event.truthy then Except.ok Option.none
  else firstResult (chainResults ext event)

end Parser

end Packit

namespace Packit

/-- A concrete external environment for the concrete-payload theorems:
URL parsing yields no names, the Testing Farm fetch fails, no test run or
Copr build is recorded, XML decoding fails, and no mirroring rules are
configured. -/
def extDefault : Externals :=
  { parseGitRepo := fun _ => ⟨Val.none, Val.none⟩
    tfFetch := fun _ => Val.none
    tftLookup := fun _ => Option.none
    coprGetBuild := fun _ => Val.none
    xmlParse := fun _ => Except.error PyErr.expatError
    projects_to_sync := []
    now := ⟨0, false⟩ }

/-- The release webhook example of §8 of the spec. -/
def releasePayload : Val :=
  Val.dict
    [("action", Val.str "published"),
     ("release", Val.dict [("tag_name", Val.str "1.2.3")]),
     ("repository", Val.dict
       [("name", Val.str "bar"),
        ("html_url", Val.str "https://github.com/foo/bar"),
        ("owner", Val.dict [("login", Val.str "foo")])])]

/-- The release event the chain produces for `releasePayload`. -/
def releaseEventExpected : ReleaseEvent :=
  { repo_namespace := Val.str "foo"
    repo_name := Val.str "bar"
    tag_name := Val.str "1.2.3"
    project_url := Val.str "https://github.com/foo/bar" }

/-- A complete github PR-comment payload authored by an ordinary user. -/
def prCommentPayload : Val :=
  Val.dict
    [("action", Val.str "created"),
     ("issue", Val.dict
       [("number", Val.int 11),
        ("pull_request", Val.dict [("url", Val.str "https://api.github.com/x")]),
        ("user", Val.dict [("login", Val.str "author")])]),
     ("comment", Val.dict
       [("body", Val.str "/packit build"),
        ("user", Val.dict [("login", Val.str "someone")])]),
     ("repository", Val.dict
       [("name", Val.str "bar"),
        ("html_url", Val.str "https://github.com/foo/bar"),
        ("owner", Val.dict [("login", Val.str "foo")])])]

/-- The same PR-comment payload authored by the service's own bot login. -/
def prCommentBotPayload : Val :=
  Val.dict
    [("action", Val.str "created"),
     ("issue", Val.dict
       [("number", Val.int 11),
        ("pull_request", Val.dict [("url", Val.str "https://api.github.com/x")]),
        ("user", Val.dict [("login", Val.str "author")])]),
     ("comment", Val.dict
       [("body", Val.str "/packit build"),
        ("user", Val.dict [("login", Val.str "packit-as-a-service[bot]")])]),
     ("repository", Val.dict
       [("name", Val.str "bar"),
        ("html_url", Val.str "https://github.com/foo/bar"),
        ("owner", Val.dict [("login", Val.str "foo")])])]

/-- A github push payload marking a branch deletion, with every required
field present. -/
def pushDeletedPayload : Val :=
  Val.dict
    [("ref", Val.str "refs/heads/main"),
     ("before", Val.str "0000000000000000000000000000000000000000"),
     ("after", Val.str "1111111111111111111111111111111111111111"),
     ("pusher", Val.dict [("name", Val.str "someone")]),
     ("deleted", Val.bool true),
     ("repository", Val.dict
       [("name", Val.str "bar"),
        ("html_url", Val.str "https://github.com/foo/bar"),
        ("owner", Val.dict [("login", Val.str "foo")])])]

/-- A gitlab push payload whose `after` commit is the all-zeros deletion
sentinel, with every required field present. -/
def gitlabPushDeletedPayload : Val :=
  Val.dict
    [("object_kind", Val.str "push"),
     ("ref", Val.str "refs/heads/main"),
     ("before", Val.str "1111111111111111111111111111111111111111"),
     ("after", Val.str "0000000000000000000000000000000000000000"),
     ("user_username", Val.str "someone"),
     ("commits", Val.list [Val.dict [("id", Val.str "abcdef0123")]]),
     ("project", Val.dict [("web_url", Val.str "https://gitlab.com/foo/bar")])]

/-- A dist-git commit payload with all required fields. -/
def distgitPayload : Val :=
  Val.dict
    [("topic", Val.str "org.fedoraproject.prod.git.receive"),
     ("commit", Val.dict
       [("namespace", Val.str "rpms"),
        ("repo", Val.str "packit"),
        ("branch", Val.str "master"),
        ("rev", Val.str "abcdef")])]

/-- A mirroring rule matching `distgitPayload`. -/
def ruleExample : ProjectToSync :=
  { forge := "https://github.com"
    repo_namespace := "packit"
    repo_name := "packit"
    branch := "main"
    dg_repo_name := "packit"
    dg_branch := "master" }

/-- The external environment with `ruleExample` configured. -/
def extWithRule : Externals :=
  { extDefault with projects_to_sync := [ruleExample] }

/-- A Testing Farm notification payload. -/
def tfPayload : Val :=
  Val.dict
    [("source", Val.str "testing-farm"),
     ("request_id", Val.str "req-1")]

/-- A gitlab merge-request payload in the `closed` state whose action is
`update`, with every other recognized field present and valid. -/
def mrClosedUpdatePayload : Val :=
  Val.dict
    [("object_kind", Val.str "merge_request"),
     ("object_attributes", Val.dict
       [("state", Val.str "closed"),
        ("action", Val.str "update"),
        ("id", Val.int 1),
        ("iid", Val.int 2),
        ("source", Val.dict [("web_url", Val.str "https://gitlab.com/ns/repo")]),
        ("source_branch", Val.str "branch"),
        ("target_branch", Val.str "main"),
        ("last_commit", Val.dict [("id", Val.str "abcdef")])]),
     ("user", Val.dict [("username", Val.str "someone")]),
     ("project", Val.dict [("web_url", Val.str "https://gitlab.com/ns2/repo2")])]

/-- The xunit report of packit-service issue 967 as `xmltodict` decodes it:
a single `testcase` node becomes one mapping rather than a list, so the
comprehension iterates over its keys and raises `TypeError`. -/
def xunitDecoded967 : Val :=
  Val.dict
    [("testsuites", Val.dict
      [("testsuite", Val.dict
        [("testcase", Val.dict
          [("@name", Val.str "/install/copr-build"),
           ("@result", Val.str "passed")])])])]

/-- A fetched Testing Farm detail whose report is the issue-967 shape. -/
def tfDetail967 : Val :=
  Val.dict
    [("result", Val.dict
      [("overall", Val.str "passed"),
       ("xunit", Val.str "<testsuites>...</testsuites>")])]

/-- The environment fetching `tfDetail967` and decoding its report to the
issue-967 shape. -/
def extTf967 : Externals :=
  { extDefault with
      tfFetch := fun _ => tfDetail967
      xmlParse := fun _ => Except.ok xunitDecoded967 }

/-- The environment fetching `tfDetail967` but failing to decode the
report as XML (`xmltodict.parse` raises on malformed input). -/
def extTfBadXml : Externals :=
  { extDefault with
      tfFetch := fun _ => tfDetail967 }

end Packit

namespace Packit

theorem sub_of_get_truthy (v : Val) (k : String) (h : (v.get k).truthy = true) :
    v.sub k = Except.ok (v.get k) := by
  cases v
  case dict kvs =>
    cases hl : lookupStr kvs k with
    | none => simp [Val.get, hl, Val.truthy] at h
    | some x => simp [Val.sub, Val.get, hl]
  all_goals simp [Val.get, Val.truthy] at h

theorem firstResult_of_all_none (rs : List (Except PyErr (Option AnyEvent)))
    (h : ∀ r ∈ rs, r = Except.ok Option.none) :
    Parser.firstResult rs = Except.ok Option.none := by
  induction rs with
  | nil => rfl
  | cons r rest ih =>
    have hr := h r (List.mem_cons_self r rest)
    rw [hr]
    show Parser.firstResult (Except.ok Option.none :: rest) = Except.ok Option.none
    rw [show Parser.firstResult (Except.ok Option.none :: rest) = Parser.firstResult rest
          from rfl]
    exact ih (fun x hx => h x (List.mem_cons_of_mem r hx))

theorem firstResult_first_some (pre post : List (Except PyErr (Option AnyEvent)))
    (e : AnyEvent) (hpre : ∀ r ∈ pre, r = Except.ok Option.none) :
    Parser.firstResult (pre ++ Except.ok (Option.some e) :: post) =
      Except.ok (Option.some e) := by
  induction pre with
  | nil => rfl
  | cons r rest ih =>
    have hr := hpre r (List.mem_cons_self r rest)
    rw [List.cons_append, hr]
    rw [show Parser.firstResult (Except.ok Option.none :: (rest ++ Except.ok (Option.some e) :: post))
          = Parser.firstResult (rest ++ Except.ok (Option.some e) :: post) from rfl]
    exact ih (fun x hx => hpre x (List.mem_cons_of_mem r hx))

/-- C1: `Parser.parse_event` tries the fourteen extractors in the fixed
listed priority order (pr, pull-request comment, issue comment, release,
push, installation, dist-git commit, testing-farm results, copr, gitlab
MR, koji, gitlab MR comment, gitlab issue comment, gitlab push) against
the one payload and returns the result of the first extractor returning a
non-empty value; the result is determined by the first match and the
all-none prefix alone (later extractors are not consulted), and when every
extractor declines the result is the empty `None`. -/
theorem parse_event_first_match_chain (ext : Externals) (event : Val) :
    (Parser.parse_event ext event =
      if event.truthy then Parser.firstResult (Parser.chainResults ext event)
      else Except.ok Option.none)
    ∧ (event.truthy = true →
        (∀ r ∈ Parser.chainResults ext event, r = Except.ok Option.none) →
        Parser.parse_event ext event = Except.ok Option.none)
    ∧ (∀ (pre post : List (Except PyErr (Option AnyEvent))) (e : AnyEvent),
        event.truthy = true →
        Parser.chainResults ext event = pre ++ Except.ok (Option.some e) :: post →
        (∀ r ∈ pre, r = Except.ok Option.none) →
        Parser.parse_event ext event = Except.ok (Option.some e)) := by
  refine ⟨?_, ?_, ?_⟩
  · unfold Parser.parse_event
    cases h : event.truthy <;> simp [h]
  · intro ht hall
    unfold Parser.parse_event
    simp [ht]
    exact firstResult_of_all_none _ hall
  · intro pre post e ht hchain hpre
    unfold Parser.parse_event
    simp [ht]
    rw [hchain]
    exact firstResult_first_some pre post e hpre

/-- Witness for C1: on the §8 release payload, the first three extractors
decline, the release extractor (fourth in the order) matches, and
`parse_event` returns exactly its event. -/
theorem parse_event_first_match_chain_witness :
    Parser.parse_event extDefault releasePayload =
      Except.ok (Option.some (AnyEvent.release releaseEventExpected)) := by
  refine (parse_event_first_match_chain extDefault releasePayload).2.2
    [Except.ok Option.none, Except.ok Option.none, Except.ok Option.none]
    [Except.ok Option.none, Except.ok Option.none, Except.ok Option.none,
     Except.ok Option.none, Except.ok Option.none, Except.ok Option.none,
     Except.ok Option.none, Except.ok Option.none, Except.ok Option.none,
     Except.ok Option.none]
    (AnyEvent.release releaseEventExpected) rfl rfl ?_
  intro r hr
  simp at hr
  exact hr

end Packit

namespace Packit

/-- C2 counterexample: at the instant 86400 seconds after the epoch,
constructing the event timestamp from the epoch-milliseconds float
86400000.0 does not yield the same internal value as the epoch-seconds
integer 86400 — `Event.__init__` passes a float to `fromtimestamp`
unscaled, as seconds. -/
theorem created_at_float_ms_counterexample :
    eventCreatedAt ⟨0, false⟩ (CreatedAtArg.pfloat 86400000) ≠
      eventCreatedAt ⟨0, false⟩ (CreatedAtArg.pint 86400) := by
  simp only [eventCreatedAt, CreatedAtArg.truthy, fromtimestampUtc]
  norm_num

/-- C2 amended: an epoch-seconds integer, the same value as an
epoch-seconds float, and an ISO-8601 string with an explicit UTC offset
denoting the same nonzero instant all normalize to the same internal
timestamp; a float carries epoch seconds (not milliseconds), and the zero
instant is falsy and falls back to construction time. -/
theorem created_at_normalization_amended (n : Int) (s : String) (now : PyDatetime)
    (hn : n ≠ 0)
    (hiso : fromisoformat (pyReplaceZ s) = Option.some (fromtimestampUtc (n : Rat))) :
    eventCreatedAt now (CreatedAtArg.pint n) = Except.ok (fromtimestampUtc (n : Rat))
    ∧ eventCreatedAt now (CreatedAtArg.pfloat (n : Rat)) =
        Except.ok (fromtimestampUtc (n : Rat))
    ∧ eventCreatedAt now (CreatedAtArg.pstr s) = Except.ok (fromtimestampUtc (n : Rat)) := by
  have hq : (n : Rat) ≠ 0 := Int.cast_ne_zero.mpr hn
  have hs : s.isEmpty = false := by
    cases hse : s.isEmpty
    · rfl
    · exfalso
      have hempty : s = "" := (String.isEmpty_iff s).mp hse
      rw [hempty] at hiso
      simp [pyReplaceZ, fromisoformat] at hiso
  refine ⟨?_, ?_, ?_⟩
  · simp [eventCreatedAt, CreatedAtArg.truthy, hn]
  · simp [eventCreatedAt, CreatedAtArg.truthy, hq]
  · simp [eventCreatedAt, CreatedAtArg.truthy, hs, hiso]

/-- Witness for C2's amended theorem at the instant 1970-01-02T00:00:00Z
(epoch seconds 86400). -/
theorem created_at_normalization_amended_witness :
    eventCreatedAt ⟨0, false⟩ (CreatedAtArg.pint 86400) =
        Except.ok (fromtimestampUtc (86400 : Rat))
    ∧ eventCreatedAt ⟨0, false⟩ (CreatedAtArg.pfloat ((86400 : Int) : Rat)) =
        Except.ok (fromtimestampUtc ((86400 : Int) : Rat))
    ∧ eventCreatedAt ⟨0, false⟩ (CreatedAtArg.pstr "1970-01-02T00:00:00Z") =
        Except.ok (fromtimestampUtc ((86400 : Int) : Rat)) := by
  have h := created_at_normalization_amended 86400 "1970-01-02T00:00:00Z" ⟨0, false⟩
    (by decide) (by rfl)
  exact ⟨by exact_mod_cast h.1, h.2.1, h.2.2⟩

end Packit

namespace Packit

/-- C4: a Testing Farm notification payload (source `testing-farm` with a
truthy `request_id`) whose synchronous detail fetch returns a falsy result
makes the extractor raise an exception instead of returning the `None`
that non-matching or rejected payloads produce. -/
theorem testing_farm_fetch_failure_raises (ext : Externals) (event : Val)
    (_hd : event.isDict = true)
    (hsrc : pyEq (event.get "source") "testing-farm" = true)
    (hreq : (event.get "request_id").truthy = true)
    (hfail : (ext.tfFetch (event.get "request_id")).truthy = false) :
    Parser.parse_testing_farm_results_event ext event =
      Except.error (PyErr.exception
        ("Failed to get " ++ pyStr (event.get "request_id") ++ " details from TF.")) := by
  unfold Parser.parse_testing_farm_results_event
  simp [hsrc, hreq, sub_of_get_truthy event "request_id" hreq, hfail]

/-- Witness for C4: the concrete notification for request `req-1` in the
environment whose fetch fails. -/
theorem testing_farm_fetch_failure_raises_witness :
    Parser.parse_testing_farm_results_event extDefault tfPayload =
      Except.error (PyErr.exception "Failed to get req-1 details from TF.") := by
  exact testing_farm_fetch_failure_raises extDefault tfPayload rfl rfl rfl rfl

/-- C6: a push payload marking a branch deletion yields no event — on
GitHub when the `deleted` flag is truthy, on GitLab when the `after`
commit is the all-zeros sentinel. -/
theorem push_branch_deletion_no_event :
    (∀ event : Val, event.isDict = true → (event.get "deleted").truthy = true →
      Parser.parse_push_event event = Except.ok Option.none)
    ∧ (∀ (ext : Externals) (event : Val), event.isDict = true →
        event.get "after" = Val.str "0000000000000000000000000000000000000000" →
        Parser.parse_gitlab_push_event ext event = Except.ok Option.none) := by
  constructor
  · intro event hd hdel
    unfold Parser.parse_push_event
    simp [hdel]
  · intro ext event hd hafter
    unfold Parser.parse_gitlab_push_event
    rw [hafter]
    have hzeros :
        (pyStartsWith "0000000000000000000000000000000000000000" "0000000") = true := by
      decide
    simp [hzeros]

/-- Witness for C6: the concrete deleted-branch payloads of both forges. -/
theorem push_branch_deletion_no_event_witness :
    Parser.parse_push_event pushDeletedPayload = Except.ok Option.none
    ∧ Parser.parse_gitlab_push_event extDefault gitlabPushDeletedPayload =
        Except.ok Option.none := by
  exact ⟨push_branch_deletion_no_event.1 pushDeletedPayload rfl rfl,
    push_branch_deletion_no_event.2 extDefault gitlabPushDeletedPayload rfl rfl⟩

end Packit

namespace Packit

/-- C7: a github PR-comment payload whose commenting user's login is one of
the service's fixed bot identities yields no event from the PR-comment
extractor, whatever the rest of the payload contains. -/
theorem pr_comment_bot_author_no_event (event : Val) (s : String)
    (_hd : event.isDict = true)
    (hlogin : nested_get event [.s "comment", .s "user", .s "login"] = Val.str s)
    (hbot : s = "packit-as-a-service[bot]" ∨ s = "packit-as-a-service-stg[bot]") :
    Parser.parse_pull_request_comment_event event = Except.ok Option.none := by
  unfold Parser.parse_pull_request_comment_event
  rcases hbot with rfl | rfl <;> simp [hlogin, pyEq, Val.truthy]

/-- Witness for C7: the complete PR-comment payload authored by
`packit-as-a-service[bot]`. -/
theorem pr_comment_bot_author_no_event_witness :
    Parser.parse_pull_request_comment_event prCommentBotPayload =
      Except.ok Option.none := by
  exact pr_comment_bot_author_no_event prCommentBotPayload
    "packit-as-a-service[bot]" rfl rfl (Or.inl rfl)

/-- C10: every event the github PR-comment extractor produces has
`base_repo_name` and `base_ref` equal to the absent `None`; the
repository name from the payload feeds only the required-field check and
`target_repo_name`. -/
theorem pr_comment_base_fields_absent (event : Val) (e : PullRequestCommentGithubEvent)
    (h : Parser.parse_pull_request_comment_event event = Except.ok (Option.some e)) :
    e.base_repo_name = Val.none ∧ e.base_ref = Val.none ∧
      e.target_repo_name = nested_get event [.s "repository", .s "name"] := by
  unfold Parser.parse_pull_request_comment_event at h
  dsimp only at h
  repeat' split at h
  all_goals simp_all
  subst h
  exact ⟨rfl, rfl, rfl⟩

/-- Witness for C10: the complete PR-comment payload produces an event,
whose base fields are the absent value. -/
theorem pr_comment_base_fields_absent_witness :
    Parser.parse_pull_request_comment_event prCommentPayload =
      Except.ok (Option.some
        { action := PullRequestCommentAction.created
          pr_id := Val.int 11
          base_repo_namespace := Val.str "author"
          base_repo_name := Val.none
          base_ref := Val.none
          target_repo_namespace := Val.str "foo"
          target_repo_name := Val.str "bar"
          project_url := Val.str "https://github.com/foo/bar"
          user_login := Val.str "someone"
          comment := Val.str "/packit build" })
    ∧ (Val.none = Val.none ∧ Val.none = Val.none ∧
        Val.str "bar" = nested_get prCommentPayload [.s "repository", .s "name"]) := by
  constructor
  · rfl
  · exact pr_comment_base_fields_absent prCommentPayload _ rfl

end Packit

namespace Packit

/-- C8 counterexample: a gitlab merge-request payload in the `closed`
state whose action is `update`, with every other recognized field present
and valid, still yields no event — the state guard rejects before the
action is consulted, so the claimed reopen/update exception does not
exist. -/
theorem mr_closed_update_counterexample :
    Parser.parse_mr_event extDefault mrClosedUpdatePayload = Except.ok Option.none := by
  rfl

/-- C8 amended: a gitlab merge-request payload whose state is not
`opened` is always filtered out, whatever action it carries; the
reopen/update membership test only chooses the action label recorded on
`opened`-state payloads. -/
theorem mr_non_opened_always_filtered (ext : Externals) (event oa st : Val)
    (_hd : event.isDict = true)
    (hkind : pyEq (event.get "object_kind") "merge_request" = true)
    (hoa : event.sub "object_attributes" = Except.ok oa)
    (hst : oa.sub "state" = Except.ok st)
    (hnotopen : pyEq st "opened" = false) :
    Parser.parse_mr_event ext event = Except.ok Option.none := by
  unfold Parser.parse_mr_event
  simp [hkind, hoa, hst, hnotopen]

/-- Witness for C8's amended theorem: the closed-state update-action
payload under a configured environment. -/
theorem mr_non_opened_always_filtered_witness :
    Parser.parse_mr_event extWithRule mrClosedUpdatePayload = Except.ok Option.none := by
  exact mr_non_opened_always_filtered extWithRule mrClosedUpdatePayload
    (Val.dict
      [("state", Val.str "closed"),
       ("action", Val.str "update"),
       ("id", Val.int 1),
       ("iid", Val.int 2),
       ("source", Val.dict [("web_url", Val.str "https://gitlab.com/ns/repo")]),
       ("source_branch", Val.str "branch"),
       ("target_branch", Val.str "main"),
       ("last_commit", Val.dict [("id", Val.str "abcdef")])])
    (Val.str "closed") rfl rfl rfl rfl rfl

/-- C5: a dist-git commit payload with the dist-git topic and all required
fields yields no event when no mirroring rule matches its repo and branch,
and when a rule matches, the produced event's `repo_namespace`,
`repo_name` and `branch` come from that rule. -/
theorem distgit_mirroring_rule_lookup (ext : Externals) (event : Val)
    (_hd : event.isDict = true)
    (htopic : pyEq (event.get "topic") distGitCommitHandlerTopic = true)
    (hns : (nested_get event [.s "commit", .s "namespace"]).truthy = true)
    (hname : (nested_get event [.s "commit", .s "repo"]).truthy = true)
    (hbr : (nested_get event [.s "commit", .s "branch"]).truthy = true)
    (hrev : (nested_get event [.s "commit", .s "rev"]).truthy = true) :
    ((∀ p ∈ ext.projects_to_sync,
        ¬(pyEq (nested_get event [.s "commit", .s "repo"]) p.dg_repo_name = true ∧
          pyEq (nested_get event [.s "commit", .s "branch"]) p.dg_branch = true)) →
      Parser.parse_distgit_commit_event ext event = Except.ok Option.none)
    ∧ (∀ p : ProjectToSync,
        get_project_to_sync ext.projects_to_sync
            (nested_get event [.s "commit", .s "repo"])
            (nested_get event [.s "commit", .s "branch"]) = Option.some p →
        Parser.parse_distgit_commit_event ext event =
          Except.ok (Option.some
            { topic := event.get "topic"
              repo_namespace := p.repo_namespace
              repo_name := p.repo_name
              branch := p.branch
              project_url := p.forge ++ "/" ++ p.repo_namespace ++ "/" ++ p.repo_name
              dg_repo_namespace := nested_get event [.s "commit", .s "namespace"]
              dg_repo_name := nested_get event [.s "commit", .s "repo"]
              dg_branch := nested_get event [.s "commit", .s "branch"]
              dg_rev := nested_get event [.s "commit", .s "rev"]
              dg_project_url := "https://src.fedoraproject.org/"
                ++ pyStr (nested_get event [.s "commit", .s "namespace"]) ++ "/"
                ++ pyStr (nested_get event [.s "commit", .s "repo"]) })) := by
  constructor
  · intro hno
    have hfilter : (ext.projects_to_sync.filter
        (fun project =>
          pyEq (nested_get event [.s "commit", .s "repo"]) project.dg_repo_name &&
            pyEq (nested_get event [.s "commit", .s "branch"]) project.dg_branch)) = [] := by
      rw [List.filter_eq_nil_iff]
      intro p hp
      intro hand
      rw [Bool.and_eq_true] at hand
      exact hno p hp ⟨hand.1, hand.2⟩
    unfold Parser.parse_distgit_commit_event
    simp [htopic, hns, hname, hbr, hrev, get_project_to_sync, hfilter]
  · intro p hp
    unfold Parser.parse_distgit_commit_event
    simp [htopic, hns, hname, hbr, hrev, hp]

/-- Witness for C5: the concrete dist-git payload yields no event without
rules and the rule-derived event with `ruleExample` configured. -/
theorem distgit_mirroring_rule_lookup_witness :
    Parser.parse_distgit_commit_event extDefault distgitPayload = Except.ok Option.none
    ∧ Parser.parse_distgit_commit_event extWithRule distgitPayload =
        Except.ok (Option.some
          { topic := Val.str "org.fedoraproject.prod.git.receive"
            repo_namespace := "packit"
            repo_name := "packit"
            branch := "main"
            project_url := "https://github.com/packit/packit"
            dg_repo_namespace := Val.str "rpms"
            dg_repo_name := Val.str "packit"
            dg_branch := Val.str "master"
            dg_rev := Val.str "abcdef"
            dg_project_url := "https://src.fedoraproject.org/rpms/packit" }) := by
  constructor
  · refine (distgit_mirroring_rule_lookup extDefault distgitPayload
      rfl rfl rfl rfl rfl rfl).1 ?_
    intro p hp
    rw [show extDefault.projects_to_sync = [] from rfl] at hp
    exact absurd hp (List.not_mem_nil p)
  · exact (distgit_mirroring_rule_lookup extWithRule distgitPayload
      rfl rfl rfl rfl rfl rfl).2 ruleExample rfl

/-- C3: serialization of a constructed event is total and deterministic —
for the `PullRequestEvent` and `InstallationEvent` variants, `get_dict`
returns the mapping containing every constructor-assigned field, with the
`trigger` and variant enums (`action`, `status`) replaced by their string
values, `created_at` replaced by the truncated integer epoch seconds of
its timestamp, and every other field copied by value (a pure value copy
models `copy.deepcopy`, so later mutation cannot reach the returned
mapping and repeated calls agree). -/
theorem get_dict_serialization_total (lo : Rat) (e : PullRequestEvent)
    (i : InstallationEvent) :
    PullRequestEvent.get_dict lo e =
      [("trigger", PyObj.str e.trigger.value),
       ("created_at", PyObj.int (pyTrunc (e.created_at.timestamp lo))),
       ("project_url", PyObj.str e.project_url),
       ("action", PyObj.str e.action.value),
       ("pr_id", PyObj.int e.pr_id),
       ("base_repo_namespace", PyObj.str e.base_repo_namespace),
       ("base_repo_name", PyObj.str e.base_repo_name),
       ("base_ref", PyObj.str e.base_ref),
       ("target_repo", PyObj.str e.target_repo),
       ("commit_sha", PyObj.str e.commit_sha),
       ("github_login", PyObj.str e.github_login)]
    ∧ InstallationEvent.get_dict lo i =
      [("trigger", PyObj.str i.trigger.value),
       ("created_at", PyObj.int (pyTrunc (i.created_at.timestamp lo))),
       ("installation_id", PyObj.val i.installation_id),
       ("account_login", PyObj.val i.account_login),
       ("account_id", PyObj.val i.account_id),
       ("account_url", PyObj.val i.account_url),
       ("account_type", PyObj.val i.account_type),
       ("repositories", PyObj.valList i.repositories),
       ("sender_id", PyObj.val i.sender_id),
       ("sender_login", PyObj.val i.sender_login),
       ("status", PyObj.str i.status.value)] := by
  constructor <;> rfl

/-- C9 counterexample: a Testing Farm payload whose fetched report is
truthy but malformed as XML (the decoder raises) aborts the whole event
recognition with that error instead of degrading to an empty test list. -/
theorem tf_malformed_xml_aborts_counterexample :
    Parser.parse_testing_farm_results_event extTfBadXml tfPayload =
      Except.error PyErr.expatError := by
  rfl

/-- C9 amended: only the `TypeError`-shaped malformation — the decoded
`testcase` collection is not a sequence of attribute mappings, as when a
single testcase decodes to one mapping (packit-service issue 967) — is
caught and degraded to the empty test list with the overall event still
produced; a report that fails XML decoding (or raises anything but
`TypeError`) aborts recognition. -/
theorem tf_xunit_typeerror_degrades :
    (∀ (ext : Externals) (xunit xd : Val),
        xunit.truthy = true →
        ext.xmlParse xunit = Except.ok xd →
        Parser.tfComprehension
            (nested_get xd [.s "testsuites", .s "testsuite", .s "testcase"] (.list [])) =
          Except.error PyErr.typeError →
        Parser.parse_tf_result_xunit ext xunit = Except.ok [])
    ∧ (∃ ev : TestingFarmResultsEvent,
        Parser.parse_testing_farm_results_event extTf967 tfPayload =
          Except.ok (Option.some ev) ∧ ev.tests = []) := by
  constructor
  · intro ext xunit xd hx hparse hcomp
    unfold Parser.parse_tf_result_xunit
    simp [hx, hparse, hcomp]
  · refine ⟨{ pipeline_id := Val.str "req-1"
              result := TestingFarmResult.passed
              compose := Val.none
              summary := Val.str ""
              log_url := "http://artifacts.dev.testing-farm.io/req-1"
              copr_build_id := Val.str ""
              copr_chroot := Val.str ""
              tests := []
              commit_sha := Val.none
              project_url := Val.none }, rfl, rfl⟩

/-- Witness for C9's amended theorem: the issue-967 report shape degrades
to the empty test list without aborting. -/
theorem tf_xunit_typeerror_degrades_witness :
    Parser.parse_tf_result_xunit extTf967 (Val.str "<testsuites>...</testsuites>") =
      Except.ok [] := by
  exact tf_xunit_typeerror_degrades.1 extTf967
    (Val.str "<testsuites>...</testsuites>") xunitDecoded967 rfl rfl rfl

end Packit
